import Mathlib

/-!
Shallow embedding of the shopping-list-api Go service.

Layers modelled, following the repository layout:
* domain entities (internal/domain/entities): ShoppingList, Item, the error values;
* application services (internal/application/services): ShoppingListService,
  ItemService, parameterized over the repository interfaces
  (internal/domain/repositories) so that arbitrary repository behaviour —
  including storage failures — can be instantiated;
* an in-memory store instance of the repositories, modelling the backing
  database rows;
* the affected-row-count logic of the postgres repositories
  (internal/infrastructure/persistence);
* the HTTP handlers' quantity normalization and error-to-status mapping
  (internal/adapters/http/handlers).

UUIDs are modelled as naturals (0 is the nil UUID); the external uuid
generator is modelled as a counter supply producing fresh non-nil ids.
Go errors are the inductive Err; storage-engine errors (gorm's record-not-found
and connectivity failures) are embedded via the Err.storage constructor.
-/

abbrev UUID := Nat

def UUID.nil : UUID := 0

/-- Errors originating in the storage engine / driver (gorm): the
record-not-found sentinel and anything else (connectivity etc.). -/
inductive StorageErr where
  | recordNotFound
  | connectionFailure (code : Nat)
  deriving DecidableEq, Repr

/-- The domain error values of internal/domain/entities/errors.go, together
with the embedding of storage-engine errors into the single Go error type. -/
inductive Err where
  | shoppingListNotFound
  | itemNotFound
  | invalidInput
  | duplicateItem
  | storage (e : StorageErr)
  deriving DecidableEq, Repr

/-- The message of each error value (Go errors.New text). -/
def Err.message : Err → String
  | .shoppingListNotFound => "shopping list not found"
  | .itemNotFound => "item not found"
  | .invalidInput => "invalid input"
  | .duplicateItem => "item already exists"
  | .storage .recordNotFound => "record not found"
  | .storage (.connectionFailure _) => "connection failure"

/-- Item entity (internal/domain/entities/item.go). Timestamps are naturals
(zero value until the storage layer assigns them). -/
structure Item where
  id : UUID
  shoppingListID : UUID
  name : String
  quantity : Int
  completed : Bool
  createdAt : Nat
  updatedAt : Nat
  deriving DecidableEq, Repr

/-- NewItem (item.go): fresh id from the uuid supply, completed false,
no parent list yet. -/
def NewItem (freshID : UUID) (name : String) (quantity : Int) : Item :=
  { id := freshID
    shoppingListID := UUID.nil
    name := name
    quantity := quantity
    completed := false
    createdAt := 0
    updatedAt := 0 }

/-- Item.MarkCompleted (item.go). -/
def Item.MarkCompleted (i : Item) : Item := { i with completed := true }

/-- Item.MarkIncomplete (item.go). -/
def Item.MarkIncomplete (i : Item) : Item := { i with completed := false }

/-- Item.UpdateQuantity (item.go). -/
def Item.UpdateQuantity (i : Item) (quantity : Int) : Item :=
  { i with quantity := quantity }

/-- ShoppingList entity (internal/domain/entities/shopping_list.go). -/
structure ShoppingList where
  id : UUID
  name : String
  description : String
  createdAt : Nat
  updatedAt : Nat
  items : List Item
  deriving DecidableEq, Repr

/-- NewShoppingList (shopping_list.go): fresh id, empty item collection. -/
def NewShoppingList (freshID : UUID) (name description : String) : ShoppingList :=
  { id := freshID
    name := name
    description := description
    createdAt := 0
    updatedAt := 0
    items := [] }

/-- ShoppingList.AddItem (shopping_list.go): stamps the item with the list id
and appends it. -/
def ShoppingList.AddItem (sl : ShoppingList) (item : Item) : ShoppingList :=
  { sl with items := sl.items ++ [{ item with shoppingListID := sl.id }] }

/-- The loop body of ShoppingList.RemoveItem (shopping_list.go): scan the items
in order, drop the first one whose ID matches, then break. -/
def removeFirstItem (itemID : UUID) : List Item → List Item
  | [] => []
  | it :: rest =>
      if it.id = itemID then rest else it :: removeFirstItem itemID rest

/-- ShoppingList.RemoveItem (shopping_list.go). -/
def ShoppingList.RemoveItem (sl : ShoppingList) (itemID : UUID) : ShoppingList :=
  { sl with items := removeFirstItem itemID sl.items }

/-- ShoppingListRepository interface
(internal/domain/repositories/shopping_list_repository.go), over an abstract
backing-store state σ.  Reads return a value or an error; writes return an
optional error together with the new state. -/
structure ShoppingListRepo (σ : Type) where
  create : σ → ShoppingList → Option Err × σ
  getByID : σ → UUID → Except Err ShoppingList
  getAll : σ → Except Err (List ShoppingList)
  update : σ → ShoppingList → Option Err × σ
  delete : σ → UUID → Option Err × σ

/-- ItemRepository interface (shopping_list_repository.go). -/
structure ItemRepo (σ : Type) where
  create : σ → Item → Option Err × σ
  getByID : σ → UUID → Except Err Item
  getByShoppingListID : σ → UUID → Except Err (List Item)
  update : σ → Item → Option Err × σ
  delete : σ → UUID → Option Err × σ

/-- ShoppingListService (internal/application/services/shopping_list_service.go). -/
structure ShoppingListService (σ : Type) where
  shoppingListRepo : ShoppingListRepo σ
  itemRepo : ItemRepo σ

/-- ItemService (internal/application/services/item_service.go). -/
structure ItemService (σ : Type) where
  itemRepo : ItemRepo σ
  shoppingListRepo : ShoppingListRepo σ

/-- ShoppingListService.CreateShoppingList: reject an empty name before any
storage call, otherwise build the new list and persist it.  The fresh uuid is
passed in explicitly (it is drawn from the generator supply). -/
def ShoppingListService.CreateShoppingList {σ : Type} (s : ShoppingListService σ)
    (st : σ) (freshID : UUID) (name description : String) :
    Except Err ShoppingList × σ :=
  if name = "" then (.error .invalidInput, st)
  else
    let list := NewShoppingList freshID name description
    match s.shoppingListRepo.create st list with
    | (some e, st2) => (.error e, st2)
    | (none, st2) => (.ok list, st2)

/-- ShoppingListService.GetShoppingList: fetch the list, then eagerly fetch
and attach all of its items. -/
def ShoppingListService.GetShoppingList {σ : Type} (s : ShoppingListService σ)
    (st : σ) (id : UUID) : Except Err ShoppingList :=
  match s.shoppingListRepo.getByID st id with
  | .error e => .error e
  | .ok list =>
    match s.itemRepo.getByShoppingListID st id with
    | .error e => .error e
    | .ok items => .ok { list with items := items }

/-- ShoppingListService.UpdateShoppingList. -/
def ShoppingListService.UpdateShoppingList {σ : Type} (s : ShoppingListService σ)
    (st : σ) (id : UUID) (name description : String) :
    Except Err ShoppingList × σ :=
  if name = "" then (.error .invalidInput, st)
  else
    match s.shoppingListRepo.getByID st id with
    | .error e => (.error e, st)
    | .ok list =>
      let list2 := { list with name := name, description := description }
      match s.shoppingListRepo.update st list2 with
      | (some e, st2) => (.error e, st2)
      | (none, st2) => (.ok list2, st2)

/-- ShoppingListService.DeleteShoppingList: direct pass-through to the
repository. -/
def ShoppingListService.DeleteShoppingList {σ : Type} (s : ShoppingListService σ)
    (st : σ) (id : UUID) : Option Err × σ :=
  s.shoppingListRepo.delete st id

/-- ItemService.CreateItem (item_service.go): reject an empty name, verify the
parent shopping list exists (any lookup error is turned into
ErrShoppingListNotFound), then build the item, stamp it with the list id, and
persist it. -/
def ItemService.CreateItem {σ : Type} (s : ItemService σ) (st : σ)
    (freshID : UUID) (shoppingListID : UUID) (name : String) (quantity : Int) :
    Except Err Item × σ :=
  if name = "" then (.error .invalidInput, st)
  else
    match s.shoppingListRepo.getByID st shoppingListID with
    | .error _ => (.error .shoppingListNotFound, st)
    | .ok _ =>
      let item := { NewItem freshID name quantity with shoppingListID := shoppingListID }
      match s.itemRepo.create st item with
      | (some e, st2) => (.error e, st2)
      | (none, st2) => (.ok item, st2)

/-- ItemService.GetItem: direct pass-through. -/
def ItemService.GetItem {σ : Type} (s : ItemService σ) (st : σ) (id : UUID) :
    Except Err Item :=
  s.itemRepo.getByID st id

/-- ItemService.GetItemsByShoppingListID: direct pass-through. -/
def ItemService.GetItemsByShoppingListID {σ : Type} (s : ItemService σ) (st : σ)
    (shoppingListID : UUID) : Except Err (List Item) :=
  s.itemRepo.getByShoppingListID st shoppingListID

/-- ItemService.UpdateItem: reject an empty name, fetch the item (errors pass
through unchanged), overwrite name/quantity/completed, persist. -/
def ItemService.UpdateItem {σ : Type} (s : ItemService σ) (st : σ) (id : UUID)
    (name : String) (quantity : Int) (completed : Bool) :
    Except Err Item × σ :=
  if name = "" then (.error .invalidInput, st)
  else
    match s.itemRepo.getByID st id with
    | .error e => (.error e, st)
    | .ok item =>
      let item2 := { item with name := name, quantity := quantity, completed := completed }
      match s.itemRepo.update st item2 with
      | (some e, st2) => (.error e, st2)
      | (none, st2) => (.ok item2, st2)

/-- ItemService.DeleteItem: direct pass-through. -/
def ItemService.DeleteItem {σ : Type} (s : ItemService σ) (st : σ) (id : UUID) :
    Option Err × σ :=
  s.itemRepo.delete st id

/-- ItemService.ToggleItemCompletion: fetch the item (errors pass through
unchanged), flip the completed flag via MarkIncomplete/MarkCompleted, persist. -/
def ItemService.ToggleItemCompletion {σ : Type} (s : ItemService σ) (st : σ)
    (id : UUID) : Except Err Item × σ :=
  match s.itemRepo.getByID st id with
  | .error e => (.error e, st)
  | .ok item =>
    let item2 := if item.completed then item.MarkIncomplete else item.MarkCompleted
    match s.itemRepo.update st item2 with
    | (some e, st2) => (.error e, st2)
    | (none, st2) => (.ok item2, st2)

/-- In-memory model of the database rows backing the postgres repositories:
a table of shopping-list rows (the items column is not part of the row; gorm
First does not preload it, but the stored record is kept whole here) and a
table of item rows correlated by shoppingListID. -/
structure Store where
  lists : List ShoppingList
  items : List Item
  deriving DecidableEq, Repr

/-- Row lookup for shopping lists: first row with the id, else the domain
not-found error (the translation done by PostgresShoppingListRepository.GetByID). -/
def Store.listGetByID (s : Store) (id : UUID) : Except Err ShoppingList :=
  match s.lists.find? (fun l => l.id == id) with
  | some l => .ok l
  | none => .error .shoppingListNotFound

/-- Row lookup for items. -/
def Store.itemGetByID (s : Store) (id : UUID) : Except Err Item :=
  match s.items.find? (fun i => i.id == id) with
  | some i => .ok i
  | none => .error .itemNotFound

/-- The in-memory instance of the ShoppingListRepository contract over Store
(the behaviour of PostgresShoppingListRepository on an always-reachable
database).  Delete cascades to the owned item rows, per the storage-level
cascade constraint. -/
def storeShoppingListRepo : ShoppingListRepo Store :=
  { create := fun s l => (none, { s with lists := s.lists ++ [l] })
    getByID := Store.listGetByID
    getAll := fun s => .ok s.lists
    update := fun s l =>
      (none, { s with lists := s.lists.map (fun x => if x.id == l.id then l else x) })
    delete := fun s id =>
      let remaining := s.lists.filter (fun l => l.id != id)
      if remaining.length == s.lists.length then (some .shoppingListNotFound, s)
      else (none, { lists := remaining
                    items := s.items.filter (fun i => i.shoppingListID != id) } ) }

/-- The in-memory instance of the ItemRepository contract over Store. -/
def storeItemRepo : ItemRepo Store :=
  { create := fun s i => (none, { s with items := s.items ++ [i] })
    getByID := Store.itemGetByID
    getByShoppingListID := fun s listID =>
      .ok (s.items.filter (fun i => i.shoppingListID == listID))
    update := fun s i =>
      (none, { s with items := s.items.map (fun x => if x.id == i.id then i else x) })
    delete := fun s id =>
      let remaining := s.items.filter (fun i => i.id != id)
      if remaining.length == s.items.length then (some .itemNotFound, s)
      else (none, { s with items := remaining }) }

/-- The services wired to the in-memory store. -/
def storeItemService : ItemService Store :=
  { itemRepo := storeItemRepo, shoppingListRepo := storeShoppingListRepo }

def storeShoppingListService : ShoppingListService Store :=
  { shoppingListRepo := storeShoppingListRepo, itemRepo := storeItemRepo }

/-- Model of the external uuid generator (github.com/google/uuid): a counter
supply; each draw consumes the supply and yields a fresh id.  Ids drawn from
the supply are pairwise distinct and never the nil UUID 0. -/
def uuidNew (g : Nat) : UUID × Nat := (g + 1, g + 1)

/-- ShoppingListService.CreateShoppingList with the fresh id drawn from the
uuid supply, threading the supply. -/
def ShoppingListService.CreateShoppingListFresh {σ : Type}
    (s : ShoppingListService σ) (st : σ) (g : Nat) (name description : String) :
    (Except Err ShoppingList × σ) × Nat :=
  let idg := uuidNew g
  (ShoppingListService.CreateShoppingList s st idg.fst name description, idg.snd)

/-- HTTP response body variants produced by the handlers. -/
inductive Body where
  | empty
  | errorMsg (msg : String)
  | itemBody (i : Item)
  | listBody (l : ShoppingList)
  | itemsBody (is : List Item)
  | listsBody (ls : List ShoppingList)
  deriving DecidableEq, Repr

/-- An HTTP response: status code and JSON body. -/
structure Response where
  status : Nat
  body : Body
  deriving DecidableEq, Repr

/-- Request body of POST /lists/:listId/items (item_handler.go); gin decodes a
missing quantity field to 0. -/
structure CreateItemRequest where
  name : String
  quantity : Int
  deriving DecidableEq, Repr

/-- Request body of PUT /items/:id (item_handler.go). -/
structure UpdateItemRequest where
  name : String
  quantity : Int
  completed : Bool
  deriving DecidableEq, Repr

/-- The error-to-status mapping at the tail of ItemHandler.CreateItem
(item_handler.go): ErrInvalidInput to 400, ErrShoppingListNotFound to 404,
any other error to a generic 500, success to 201 with the created item. -/
def ItemHandler.CreateItemRespond (result : Except Err Item) : Response :=
  match result with
  | .error .invalidInput => { status := 400, body := .errorMsg Err.invalidInput.message }
  | .error .shoppingListNotFound => { status := 404, body := .errorMsg "Shopping list not found" }
  | .error _ => { status := 500, body := .errorMsg "Failed to create item" }
  | .ok item => { status := 201, body := .itemBody item }

/-- ItemHandler.CreateItem after id parsing and JSON binding: normalize a
non-positive quantity to 1, call the service, map the outcome.  The service is
abstract, so the quantity the handler passes to the service layer is exactly
pinned by the equations proved about this definition. -/
def ItemHandler.CreateItem (svc : UUID → String → Int → Except Err Item)
    (listID : UUID) (req : CreateItemRequest) : Response :=
  let q := if req.quantity ≤ 0 then 1 else req.quantity
  ItemHandler.CreateItemRespond (svc listID req.name q)

/-- The error-to-status mapping at the tail of ItemHandler.GetItem. -/
def ItemHandler.GetItemRespond (result : Except Err Item) : Response :=
  match result with
  | .error .itemNotFound => { status := 404, body := .errorMsg "Item not found" }
  | .error _ => { status := 500, body := .errorMsg "Failed to retrieve item" }
  | .ok item => { status := 200, body := .itemBody item }

/-- The error-to-status mapping at the tail of ItemHandler.UpdateItem:
ErrItemNotFound to 404, ErrInvalidInput to 400, anything else to 500. -/
def ItemHandler.UpdateItemRespond (result : Except Err Item) : Response :=
  match result with
  | .error .itemNotFound => { status := 404, body := .errorMsg "Item not found" }
  | .error .invalidInput => { status := 400, body := .errorMsg Err.invalidInput.message }
  | .error _ => { status := 500, body := .errorMsg "Failed to update item" }
  | .ok item => { status := 200, body := .itemBody item }

/-- ItemHandler.UpdateItem after id parsing and JSON binding: normalize a
non-positive quantity to 1 before calling the service. -/
def ItemHandler.UpdateItem (svc : UUID → String → Int → Bool → Except Err Item)
    (id : UUID) (req : UpdateItemRequest) : Response :=
  let q := if req.quantity ≤ 0 then 1 else req.quantity
  ItemHandler.UpdateItemRespond (svc id req.name q req.completed)

/-- The error-to-status mapping at the tail of ItemHandler.ToggleItemCompletion. -/
def ItemHandler.ToggleRespond (result : Except Err Item) : Response :=
  match result with
  | .error .itemNotFound => { status := 404, body := .errorMsg "Item not found" }
  | .error _ => { status := 500, body := .errorMsg "Failed to toggle item completion" }
  | .ok item => { status := 200, body := .itemBody item }

/-- The error-to-status mapping at the tail of
ShoppingListHandler.CreateShoppingList (shopping_list_handler.go). -/
def ShoppingListHandler.CreateRespond (result : Except Err ShoppingList) : Response :=
  match result with
  | .error .invalidInput => { status := 400, body := .errorMsg Err.invalidInput.message }
  | .error _ => { status := 500, body := .errorMsg "Failed to create shopping list" }
  | .ok list => { status := 201, body := .listBody list }

/-- The error-to-status mapping at the tail of
ShoppingListHandler.GetShoppingList. -/
def ShoppingListHandler.GetRespond (result : Except Err ShoppingList) : Response :=
  match result with
  | .error .shoppingListNotFound => { status := 404, body := .errorMsg "Shopping list not found" }
  | .error _ => { status := 500, body := .errorMsg "Failed to retrieve shopping list" }
  | .ok list => { status := 200, body := .listBody list }

/-- The error-to-status mapping at the tail of
ShoppingListHandler.GetAllShoppingLists. -/
def ShoppingListHandler.GetAllRespond (result : Except Err (List ShoppingList)) : Response :=
  match result with
  | .error _ => { status := 500, body := .errorMsg "Failed to retrieve shopping lists" }
  | .ok lists => { status := 200, body := .listsBody lists }

/-- The error-to-status mapping at the tail of
ShoppingListHandler.UpdateShoppingList: ErrShoppingListNotFound to 404,
ErrInvalidInput to 400, anything else to 500. -/
def ShoppingListHandler.UpdateRespond (result : Except Err ShoppingList) : Response :=
  match result with
  | .error .shoppingListNotFound => { status := 404, body := .errorMsg "Shopping list not found" }
  | .error .invalidInput => { status := 400, body := .errorMsg Err.invalidInput.message }
  | .error _ => { status := 500, body := .errorMsg "Failed to update shopping list" }
  | .ok list => { status := 200, body := .listBody list }

/-- The error-to-status mapping at the tail of
ShoppingListHandler.DeleteShoppingList: 204 on success. -/
def ShoppingListHandler.DeleteRespond (result : Option Err) : Response :=
  match result with
  | some .shoppingListNotFound => { status := 404, body := .errorMsg "Shopping list not found" }
  | some _ => { status := 500, body := .errorMsg "Failed to delete shopping list" }
  | none => { status := 204, body := .empty }

/-- The error-to-status mapping at the tail of ItemHandler.DeleteItem:
204 on success. -/
def ItemHandler.DeleteRespond (result : Option Err) : Response :=
  match result with
  | some .itemNotFound => { status := 404, body := .errorMsg "Item not found" }
  | some _ => { status := 500, body := .errorMsg "Failed to delete item" }
  | none => { status := 204, body := .empty }

/-- The error-to-status mapping at the tail of
ItemHandler.GetItemsByShoppingListID. -/
def ItemHandler.GetItemsRespond (result : Except Err (List Item)) : Response :=
  match result with
  | .error _ => { status := 500, body := .errorMsg "Failed to retrieve items" }
  | .ok items => { status := 200, body := .itemsBody items }

/-- The per-list loop body of ShoppingListService.GetAllShoppingLists: attach
each list's items in order, aborting on the first repository error. -/
def ShoppingListService.loadItemsForAll {σ : Type} (s : ShoppingListService σ)
    (st : σ) : List ShoppingList → Except Err (List ShoppingList)
  | [] => .ok []
  | l :: rest =>
    match s.itemRepo.getByShoppingListID st l.id with
    | .error e => .error e
    | .ok items =>
      match ShoppingListService.loadItemsForAll s st rest with
      | .error e => .error e
      | .ok rest2 => .ok ({ l with items := items } :: rest2)

/-- ShoppingListService.GetAllShoppingLists: fetch every list, then eagerly
attach each list's items (one item query per list); any repository error is
propagated unchanged. -/
def ShoppingListService.GetAllShoppingLists {σ : Type} (s : ShoppingListService σ)
    (st : σ) : Except Err (List ShoppingList) :=
  match s.shoppingListRepo.getAll st with
  | .error e => .error e
  | .ok lists => ShoppingListService.loadItemsForAll s st lists

/-- The result of executing a SQL delete statement: the statement error, if
any, and the affected-row count (gorm result.Error / result.RowsAffected). -/
structure DBExecResult where
  error : Option StorageErr
  rowsAffected : Nat
  deriving DecidableEq, Repr

/-- PostgresShoppingListRepository.Delete
(internal/infrastructure/persistence/postgres_shopping_list_repository.go):
a statement error is returned unchanged; zero affected rows is translated to
ErrShoppingListNotFound; otherwise success. -/
def PostgresShoppingListRepository.Delete (result : DBExecResult) : Option Err :=
  match result.error with
  | some e => some (.storage e)
  | none => if result.rowsAffected = 0 then some .shoppingListNotFound else none

/-- PostgresItemRepository.Delete (the persistence document embedded in
internal/infrastructure/database/postgres_test.go, lines 232-241): a statement
error is returned unchanged; zero affected rows is translated to
ErrItemNotFound; otherwise success. -/
def PostgresItemRepository.Delete (result : DBExecResult) : Option Err :=
  match result.error with
  | some e => some (.storage e)
  | none => if result.rowsAffected = 0 then some .itemNotFound else none

/-- PostgresShoppingListRepository.GetByID error translation: the gorm
record-not-found sentinel becomes ErrShoppingListNotFound, every other storage
error passes through unchanged. -/
def PostgresShoppingListRepository.GetByID
    (dbResult : Except StorageErr ShoppingList) : Except Err ShoppingList :=
  match dbResult with
  | .error .recordNotFound => .error .shoppingListNotFound
  | .error e => .error (.storage e)
  | .ok l => .ok l

/-- A shopping-list repository whose every storage call fails with a
connectivity error (the database is unreachable). -/
def connFailListRepo : ShoppingListRepo Unit :=
  { create := fun s _ => (some (.storage (.connectionFailure 7)), s)
    getByID := fun _ _ => .error (.storage (.connectionFailure 7))
    getAll := fun _ => .error (.storage (.connectionFailure 7))
    update := fun s _ => (some (.storage (.connectionFailure 7)), s)
    delete := fun s _ => (some (.storage (.connectionFailure 7)), s) }

/-- An item repository whose every storage call fails with a connectivity
error. -/
def connFailItemRepo : ItemRepo Unit :=
  { create := fun s _ => (some (.storage (.connectionFailure 7)), s)
    getByID := fun _ _ => .error (.storage (.connectionFailure 7))
    getByShoppingListID := fun _ _ => .error (.storage (.connectionFailure 7))
    update := fun s _ => (some (.storage (.connectionFailure 7)), s)
    delete := fun s _ => (some (.storage (.connectionFailure 7)), s) }

/-- The item service wired to an unreachable database. -/
def connFailItemService : ItemService Unit :=
  { itemRepo := connFailItemRepo, shoppingListRepo := connFailListRepo }

/-- The shopping-list service wired to an unreachable database. -/
def connFailShoppingListService : ShoppingListService Unit :=
  { shoppingListRepo := connFailListRepo, itemRepo := connFailItemRepo }

/-- Sample rows for concrete witnesses. -/
def sampleMilk : Item :=
  { id := 10, shoppingListID := 1, name := "Milk", quantity := 1,
    completed := false, createdAt := 0, updatedAt := 0 }

def sampleNails : Item :=
  { id := 11, shoppingListID := 2, name := "Nails", quantity := 3,
    completed := false, createdAt := 0, updatedAt := 0 }

def sampleEggs : Item :=
  { id := 12, shoppingListID := 1, name := "Eggs", quantity := 6,
    completed := true, createdAt := 0, updatedAt := 0 }

def sampleGroceries : ShoppingList :=
  { id := 1, name := "Groceries", description := "weekly", createdAt := 0,
    updatedAt := 0, items := [] }

def sampleStore : Store :=
  { lists := [sampleGroceries], items := [sampleMilk, sampleNails, sampleEggs] }

/-- A list whose second and third items share an id, to exhibit that only the
first match is removed. -/
def sampleDupList : ShoppingList :=
  { id := 3, name := "Dup", description := "", createdAt := 0, updatedAt := 0,
    items := [sampleMilk, sampleNails, { sampleEggs with id := 11 }] }

/-- C3: for every repository instance and every backing state, creating a
shopping list with an empty name fails with InvalidInput and returns the state
unchanged — since this holds for arbitrary repositories, no repository write
(create) can have been performed. -/
theorem createShoppingList_emptyName_noWrite {σ : Type} (svc : ShoppingListService σ)
    (st : σ) (freshID : UUID) (description : String) :
    ShoppingListService.CreateShoppingList svc st freshID "" description
      = (.error .invalidInput, st) := by
  simp [ShoppingListService.CreateShoppingList]

/-- C1: ItemService.CreateItem fails with InvalidInput on an empty name; and
when no shopping list with the given id exists in the store, it fails with the
shopping-list-not-found variant and leaves the store unchanged (no item row is
written), the existence check preceding the insert. -/
theorem createItem_emptyName_or_missingList (st : Store) (freshID listID : UUID)
    (name : String) (quantity : Int) :
    (name = "" →
      ItemService.CreateItem storeItemService st freshID listID name quantity
        = (.error .invalidInput, st)) ∧
    (name ≠ "" → (∀ l ∈ st.lists, l.id ≠ listID) →
      ItemService.CreateItem storeItemService st freshID listID name quantity
        = (.error .shoppingListNotFound, st)) := by
  constructor
  · intro h
    simp [ItemService.CreateItem, h]
  · intro h hnone
    have hfind : st.lists.find? (fun l => l.id == listID) = none := by
      rw [List.find?_eq_none]
      intro l hl
      simpa using hnone l hl
    simp [ItemService.CreateItem, h, storeItemService, storeShoppingListRepo,
      Store.listGetByID, hfind]

theorem createItem_emptyName_or_missingList_witness :
    ItemService.CreateItem storeItemService { lists := [], items := [] } 5 9 "" 2
      = (.error .invalidInput, { lists := [], items := [] }) ∧
    ItemService.CreateItem storeItemService { lists := [], items := [] } 5 9 "Milk" 2
      = (.error .shoppingListNotFound, { lists := [], items := [] }) :=
  ⟨(createItem_emptyName_or_missingList { lists := [], items := [] } 5 9 "" 2).1 rfl,
   (createItem_emptyName_or_missingList { lists := [], items := [] } 5 9 "Milk" 2).2
     (by decide) (by intro l hl; simp at hl)⟩

/-- C6: the item-create and item-update handlers pass quantity 1 to the service
layer whenever the decoded quantity is non-positive (an omitted JSON quantity
decodes to 0), and pass a positive quantity through unchanged.  The service is
universally quantified, so these equations pin exactly the argument handed to
the service layer. -/
theorem handlers_normalize_quantity
    (svcC : UUID → String → Int → Except Err Item)
    (svcU : UUID → String → Int → Bool → Except Err Item)
    (listID id : UUID) (name : String) (q : Int) (completed : Bool) :
    (q ≤ 0 →
      ItemHandler.CreateItem svcC listID { name := name, quantity := q }
        = ItemHandler.CreateItemRespond (svcC listID name 1) ∧
      ItemHandler.UpdateItem svcU id { name := name, quantity := q, completed := completed }
        = ItemHandler.UpdateItemRespond (svcU id name 1 completed)) ∧
    (0 < q →
      ItemHandler.CreateItem svcC listID { name := name, quantity := q }
        = ItemHandler.CreateItemRespond (svcC listID name q) ∧
      ItemHandler.UpdateItem svcU id { name := name, quantity := q, completed := completed }
        = ItemHandler.UpdateItemRespond (svcU id name q completed)) := by
  constructor
  · intro h
    constructor <;> simp [ItemHandler.CreateItem, ItemHandler.UpdateItem, h]
  · intro h
    have h2 : ¬ q ≤ 0 := not_le.mpr h
    constructor <;> simp [ItemHandler.CreateItem, ItemHandler.UpdateItem, h2]

theorem handlers_normalize_quantity_witness :
    ItemHandler.CreateItem (fun _ n q => Except.ok (NewItem 3 n q)) 9
        { name := "Bread", quantity := 0 }
      = ItemHandler.CreateItemRespond (Except.ok (NewItem 3 "Bread" 1)) ∧
    ItemHandler.UpdateItem (fun _ n q c => Except.ok { NewItem 4 n q with completed := c }) 9
        { name := "Bread", quantity := 0, completed := true }
      = ItemHandler.UpdateItemRespond (Except.ok { NewItem 4 "Bread" 1 with completed := true }) :=
  (handlers_normalize_quantity (fun _ n q => Except.ok (NewItem 3 n q))
    (fun _ n q c => Except.ok { NewItem 4 n q with completed := c })
    9 9 "Bread" 0 true).1 (by decide)

/-- C7: both repository delete operations return the domain NotFound error
exactly when the delete statement ran without error but affected zero rows; a
statement error is returned unchanged, and an affected row count above zero is
success.  (The item variant is transcribed from the persistence document
embedded in internal/infrastructure/database/postgres_test.go, lines 232-241.) -/
theorem repoDelete_rowCount (r : DBExecResult) :
    (∀ e, r.error = some e →
       PostgresShoppingListRepository.Delete r = some (.storage e) ∧
       PostgresItemRepository.Delete r = some (.storage e)) ∧
    (r.error = none → r.rowsAffected = 0 →
       PostgresShoppingListRepository.Delete r = some .shoppingListNotFound ∧
       PostgresItemRepository.Delete r = some .itemNotFound) ∧
    (r.error = none → 0 < r.rowsAffected →
       PostgresShoppingListRepository.Delete r = none ∧
       PostgresItemRepository.Delete r = none) ∧
    (PostgresShoppingListRepository.Delete r = some .shoppingListNotFound ↔
       r.error = none ∧ r.rowsAffected = 0) ∧
    (PostgresItemRepository.Delete r = some .itemNotFound ↔
       r.error = none ∧ r.rowsAffected = 0) := by
  obtain ⟨err, n⟩ := r
  cases err with
  | none =>
    cases n <;>
      simp [PostgresShoppingListRepository.Delete, PostgresItemRepository.Delete]
  | some e =>
    simp [PostgresShoppingListRepository.Delete, PostgresItemRepository.Delete]

theorem repoDelete_rowCount_witness :
    PostgresShoppingListRepository.Delete { error := none, rowsAffected := 0 }
      = some .shoppingListNotFound ∧
    PostgresItemRepository.Delete { error := none, rowsAffected := 0 }
      = some .itemNotFound :=
  (repoDelete_rowCount { error := none, rowsAffected := 0 }).2.1 rfl rfl

/-- C2 counterexample: with an unreachable database the parent-list lookup in
ItemService.CreateItem fails with a connectivity error — an error distinct from
the domain not-found errors — yet CreateItem reports ErrShoppingListNotFound
and the HTTP layer answers 404, not 500: the error IS reported to the client as
NotFound, contrary to the claim. -/
theorem createItem_connFailure_reportedNotFound :
    connFailListRepo.getByID () 42 = .error (.storage (.connectionFailure 7)) ∧
    Err.storage (.connectionFailure 7) ≠ Err.shoppingListNotFound ∧
    ItemService.CreateItem connFailItemService () 1 42 "Milk" 2
      = (.error .shoppingListNotFound, ()) ∧
    (ItemHandler.CreateItemRespond
        (ItemService.CreateItem connFailItemService () 1 42 "Milk" 2).fst).status
      = 404 := by
  refine ⟨rfl, by decide, rfl, rfl⟩

/-- C2 amended: for every service operation, a repository error distinct from
the domain not-found errors is propagated unchanged through the service layer
and surfaced as a generic 500 at the HTTP boundary — with one exception, which
the counterexample forces: the parent-list existence check inside
ItemService.CreateItem collapses every lookup error, including such storage
errors, into ErrShoppingListNotFound, surfaced as 404 (the item insert inside
CreateItem still propagates its errors unchanged to a 500). -/
theorem storageErrors_surface500_except_createItemLookup {σ : Type}
    (svc : ItemService σ) (svcL : ShoppingListService σ) (st st2 : σ)
    (e : StorageErr) (id listID freshID : UUID) (name description : String)
    (q : Int) (completed : Bool) :
    ((ItemHandler.GetItemRespond (.error (.storage e))).status = 500 ∧
     (ItemHandler.UpdateItemRespond (.error (.storage e))).status = 500 ∧
     (ItemHandler.ToggleRespond (.error (.storage e))).status = 500 ∧
     (ItemHandler.CreateItemRespond (.error (.storage e))).status = 500 ∧
     (ItemHandler.DeleteRespond (some (.storage e))).status = 500 ∧
     (ItemHandler.GetItemsRespond (.error (.storage e))).status = 500 ∧
     (ShoppingListHandler.CreateRespond (.error (.storage e))).status = 500 ∧
     (ShoppingListHandler.GetRespond (.error (.storage e))).status = 500 ∧
     (ShoppingListHandler.GetAllRespond (.error (.storage e))).status = 500 ∧
     (ShoppingListHandler.UpdateRespond (.error (.storage e))).status = 500 ∧
     (ShoppingListHandler.DeleteRespond (some (.storage e))).status = 500) ∧
    (svc.itemRepo.getByID st id = .error (.storage e) →
       ItemService.GetItem svc st id = .error (.storage e) ∧
       (name ≠ "" →
         ItemService.UpdateItem svc st id name q completed = (.error (.storage e), st)) ∧
       ItemService.ToggleItemCompletion svc st id = (.error (.storage e), st)) ∧
    (svc.itemRepo.getByShoppingListID st listID = .error (.storage e) →
       ItemService.GetItemsByShoppingListID svc st listID = .error (.storage e)) ∧
    (svc.itemRepo.delete st id = (some (.storage e), st2) →
       ItemService.DeleteItem svc st id = (some (.storage e), st2)) ∧
    (∀ l, svc.shoppingListRepo.getByID st listID = .ok l →
       svc.itemRepo.create st { NewItem freshID name q with shoppingListID := listID }
         = (some (.storage e), st2) →
       name ≠ "" →
       ItemService.CreateItem svc st freshID listID name q = (.error (.storage e), st2)) ∧
    (name ≠ "" →
       svcL.shoppingListRepo.create st (NewShoppingList freshID name description)
         = (some (.storage e), st2) →
       ShoppingListService.CreateShoppingList svcL st freshID name description
         = (.error (.storage e), st2)) ∧
    (svcL.shoppingListRepo.getByID st id = .error (.storage e) →
       ShoppingListService.GetShoppingList svcL st id = .error (.storage e) ∧
       (name ≠ "" →
         ShoppingListService.UpdateShoppingList svcL st id name description
           = (.error (.storage e), st))) ∧
    (∀ l, svcL.shoppingListRepo.getByID st id = .ok l →
       svcL.itemRepo.getByShoppingListID st id = .error (.storage e) →
       ShoppingListService.GetShoppingList svcL st id = .error (.storage e)) ∧
    (svcL.shoppingListRepo.getAll st = .error (.storage e) →
       ShoppingListService.GetAllShoppingLists svcL st = .error (.storage e)) ∧
    (svcL.shoppingListRepo.delete st id = (some (.storage e), st2) →
       ShoppingListService.DeleteShoppingList svcL st id = (some (.storage e), st2)) ∧
    (svc.shoppingListRepo.getByID st listID = .error (.storage e) → name ≠ "" →
       ItemService.CreateItem svc st freshID listID name q
         = (.error .shoppingListNotFound, st) ∧
       (ItemHandler.CreateItemRespond (.error .shoppingListNotFound)).status = 404) := by
  refine ⟨⟨rfl, rfl, rfl, rfl, rfl, rfl, rfl, rfl, rfl, rfl, rfl⟩,
    ?_, ?_, ?_, ?_, ?_, ?_, ?_, ?_, ?_, ?_⟩
  · intro h
    refine ⟨?_, ?_, ?_⟩
    · simp [ItemService.GetItem, h]
    · intro hn
      simp [ItemService.UpdateItem, hn, h]
    · simp [ItemService.ToggleItemCompletion, h]
  · intro h
    simp [ItemService.GetItemsByShoppingListID, h]
  · intro h
    simp [ItemService.DeleteItem, h]
  · intro l hl hcr hn
    simp [ItemService.CreateItem, hn, hl, hcr]
  · intro hn hcr
    simp [ShoppingListService.CreateShoppingList, hn, hcr]
  · intro h
    refine ⟨?_, ?_⟩
    · simp [ShoppingListService.GetShoppingList, h]
    · intro hn
      simp [ShoppingListService.UpdateShoppingList, hn, h]
  · intro l hl hit
    simp [ShoppingListService.GetShoppingList, hl, hit]
  · intro h
    simp [ShoppingListService.GetAllShoppingLists, h]
  · intro h
    simp [ShoppingListService.DeleteShoppingList, h]
  · intro h hn
    exact ⟨by simp [ItemService.CreateItem, hn, h], rfl⟩

theorem storageErrors_surface500_except_createItemLookup_witness :
    ItemService.GetItem connFailItemService () 3 = .error (.storage (.connectionFailure 7)) ∧
    ItemService.DeleteItem connFailItemService () 3
      = (some (.storage (.connectionFailure 7)), ()) ∧
    ShoppingListService.GetAllShoppingLists connFailShoppingListService ()
      = .error (.storage (.connectionFailure 7)) ∧
    ShoppingListService.DeleteShoppingList connFailShoppingListService () 3
      = (some (.storage (.connectionFailure 7)), ()) ∧
    ItemService.CreateItem connFailItemService () 1 42 "Milk" 2
      = (.error .shoppingListNotFound, ()) := by
  have h := storageErrors_surface500_except_createItemLookup connFailItemService
    connFailShoppingListService () () (.connectionFailure 7) 3 42 1 "Milk" "w" 2 false
  obtain ⟨-, h2, h3, h4, h5, h6, h7, h8, h9, h10, h11⟩ := h
  exact ⟨(h2 rfl).1, h4 rfl, h9 rfl, h10 rfl, (h11 rfl (by decide)).1⟩

/-- C4: GetShoppingList over the in-memory store fails with the shopping-list
not-found error exactly when no stored list row carries the requested id; on
success the returned aggregate carries exactly the item rows whose
shoppingListID equals the requested id (the fetch is eager and complete). -/
theorem getShoppingList_notFound_and_eager (st : Store) (id : UUID) :
    ((∀ l ∈ st.lists, l.id ≠ id) →
      ShoppingListService.GetShoppingList storeShoppingListService st id
        = .error .shoppingListNotFound) ∧
    (∀ l, Store.listGetByID st id = .ok l →
      ShoppingListService.GetShoppingList storeShoppingListService st id
        = .ok { l with items := st.items.filter (fun i => i.shoppingListID == id) }) := by
  constructor
  · intro hnone
    have hfind : st.lists.find? (fun l => l.id == id) = none := by
      rw [List.find?_eq_none]
      intro l hl
      simpa using hnone l hl
    simp [ShoppingListService.GetShoppingList, storeShoppingListService,
      storeShoppingListRepo, Store.listGetByID, hfind]
  · intro l hl
    simp [ShoppingListService.GetShoppingList, storeShoppingListService,
      storeShoppingListRepo, storeItemRepo, hl]

theorem getShoppingList_notFound_and_eager_witness :
    ShoppingListService.GetShoppingList storeShoppingListService sampleStore 1
      = .ok { sampleGroceries with items := [sampleMilk, sampleEggs] } ∧
    ShoppingListService.GetShoppingList storeShoppingListService sampleStore 5
      = .error .shoppingListNotFound := by
  constructor
  · have h := (getShoppingList_notFound_and_eager sampleStore 1).2 sampleGroceries rfl
    exact h.trans rfl
  · exact (getShoppingList_notFound_and_eager sampleStore 5).1 (by decide)

/-- C8: creating two lists with valid names, drawing ids from the uuid supply:
each call succeeds, each created list has a non-nil freshly generated id, the
two ids are distinct, each items collection is empty, and each list is
persisted in the resulting store. -/
theorem createShoppingList_freshID (st : Store) (g : Nat)
    (name description name2 description2 : String)
    (h : name ≠ "") (h2 : name2 ≠ "") :
    ∃ l1 st1 l2 st2,
      ShoppingListService.CreateShoppingListFresh storeShoppingListService st g
          name description
        = ((.ok l1, st1), g + 1) ∧
      ShoppingListService.CreateShoppingListFresh storeShoppingListService st1 (g + 1)
          name2 description2
        = ((.ok l2, st2), g + 2) ∧
      l1.id ≠ UUID.nil ∧ l2.id ≠ UUID.nil ∧ l1.id ≠ l2.id ∧
      l1.items = [] ∧ l2.items = [] ∧
      l1 ∈ st1.lists ∧ l2 ∈ st2.lists := by
  refine ⟨NewShoppingList (g + 1) name description,
    { st with lists := st.lists ++ [NewShoppingList (g + 1) name description] },
    NewShoppingList (g + 2) name2 description2,
    { st with lists := (st.lists ++ [NewShoppingList (g + 1) name description])
        ++ [NewShoppingList (g + 2) name2 description2] },
    ?_, ?_, ?_, ?_, ?_, ?_, ?_, ?_, ?_⟩
  · simp [ShoppingListService.CreateShoppingListFresh,
      ShoppingListService.CreateShoppingList, uuidNew, h,
      storeShoppingListService, storeShoppingListRepo]
  · simp [ShoppingListService.CreateShoppingListFresh,
      ShoppingListService.CreateShoppingList, uuidNew, h2,
      storeShoppingListService, storeShoppingListRepo]
  · simp [NewShoppingList, UUID.nil]
  · simp [NewShoppingList, UUID.nil]
  · simp [NewShoppingList]
  · rfl
  · rfl
  · simp [NewShoppingList]
  · simp [NewShoppingList]

theorem createShoppingList_freshID_witness :
    ∃ l1 st1 l2 st2,
      ShoppingListService.CreateShoppingListFresh storeShoppingListService
          { lists := [], items := [] } 0 "Groceries" "weekly"
        = ((.ok l1, st1), 0 + 1) ∧
      ShoppingListService.CreateShoppingListFresh storeShoppingListService st1 (0 + 1)
          "Hardware" "diy"
        = ((.ok l2, st2), 0 + 2) ∧
      l1.id ≠ UUID.nil ∧ l2.id ≠ UUID.nil ∧ l1.id ≠ l2.id ∧
      l1.items = [] ∧ l2.items = [] ∧
      l1 ∈ st1.lists ∧ l2 ∈ st2.lists :=
  createShoppingList_freshID { lists := [], items := [] } 0 "Groceries" "weekly"
    "Hardware" "diy" (by decide) (by decide)

/-- removeFirstItem leaves a list without a matching id unchanged. -/
theorem removeFirstItem_no_match (itemID : UUID) (l : List Item)
    (h : ∀ x ∈ l, x.id ≠ itemID) : removeFirstItem itemID l = l := by
  induction l with
  | nil => rfl
  | cons a rest ih =>
    have ha : a.id ≠ itemID := h a (by simp)
    simp [removeFirstItem, ha, ih (fun x hx => h x (by simp [hx]))]

/-- removeFirstItem drops exactly the first matching element. -/
theorem removeFirstItem_first_match (itemID : UUID) (pre post : List Item) (x : Item)
    (hx : x.id = itemID) (hpre : ∀ y ∈ pre, y.id ≠ itemID) :
    removeFirstItem itemID (pre ++ x :: post) = pre ++ post := by
  induction pre with
  | nil => simp [removeFirstItem, hx]
  | cons a rest ih =>
    have ha : a.id ≠ itemID := hpre a (by simp)
    simp [removeFirstItem, ha, ih (fun y hy => hpre y (by simp [hy]))]

/-- C9: ShoppingList.RemoveItem leaves the list unchanged when no item's id
matches, and otherwise removes exactly the first matching item, preserving all
other items and their relative order. -/
theorem removeItem_removes_first_only (sl : ShoppingList) (itemID : UUID) :
    ((∀ x ∈ sl.items, x.id ≠ itemID) → ShoppingList.RemoveItem sl itemID = sl) ∧
    (∀ pre x post, sl.items = pre ++ x :: post → x.id = itemID →
      (∀ y ∈ pre, y.id ≠ itemID) →
      (ShoppingList.RemoveItem sl itemID).items = pre ++ post) := by
  constructor
  · intro h
    simp [ShoppingList.RemoveItem, removeFirstItem_no_match itemID sl.items h]
  · intro pre x post hsplit hx hpre
    simp [ShoppingList.RemoveItem, hsplit,
      removeFirstItem_first_match itemID pre post x hx hpre]

theorem removeItem_removes_first_only_witness :
    ShoppingList.RemoveItem sampleDupList 99 = sampleDupList ∧
    (ShoppingList.RemoveItem sampleDupList 11).items
      = [sampleMilk] ++ [{ sampleEggs with id := 11 }] := by
  constructor
  · exact (removeItem_removes_first_only sampleDupList 99).1 (by decide)
  · exact (removeItem_removes_first_only sampleDupList 11).2
      [sampleMilk] sampleNails [{ sampleEggs with id := 11 }] rfl rfl (by decide)


/-- Replacing, in a row table, every row whose id equals the target id by a new
row carrying that id makes the new row the first match of a lookup. -/
theorem find_replace_eq (l : List Item) (id : UUID) (it new : Item)
    (hid : new.id = id) (hfind : l.find? (fun j => j.id == id) = some it) :
    (l.map (fun x => if x.id = id then new else x)).find? (fun j => j.id == id)
      = some new := by
  induction l with
  | nil => simp at hfind
  | cons a rest ih =>
    by_cases ha : a.id = id
    · simp [List.find?_cons, ha, hid]
    · have hrest : rest.find? (fun j => j.id == id) = some it := by
        rw [List.find?_cons_of_neg] at hfind
        · exact hfind
        · simp [ha]
      rw [List.map_cons, List.find?_cons_of_neg]
      · exact ih hrest
      · simp [ha]

/-- C5: over the in-memory store, toggling an existing item's completion flips
its completed flag, persists the flipped row, and toggling again restores and
persists the item exactly as it originally was. -/
theorem toggleCompletion_flips_and_twice_restores (st : Store) (id : UUID) (it : Item)
    (h : Store.itemGetByID st id = .ok it) :
    ∃ it1 st1 st2,
      ItemService.ToggleItemCompletion storeItemService st id = (.ok it1, st1) ∧
      it1.completed = !it.completed ∧
      Store.itemGetByID st1 id = .ok it1 ∧
      ItemService.ToggleItemCompletion storeItemService st1 id = (.ok it, st2) ∧
      Store.itemGetByID st2 id = .ok it := by
  have hf : st.items.find? (fun j => j.id == id) = some it := by
    revert h
    unfold Store.itemGetByID
    cases hfind : st.items.find? (fun j => j.id == id) with
    | none => intro h; simp at h
    | some a => intro h; simp only [Except.ok.injEq] at h; rw [h]
  have hid : it.id = id := by
    have hp := List.find?_some hf
    simpa using hp
  obtain ⟨iid, sid, nm, qt, cp, ca, ua⟩ := it
  simp only at hid
  subst hid
  cases cp with
  | false =>
    have hf2 := find_replace_eq st.items iid (Item.mk iid sid nm qt false ca ua)
      (Item.mk iid sid nm qt true ca ua) rfl hf
    have hf3 := find_replace_eq
      (st.items.map (fun x => if x.id = iid then Item.mk iid sid nm qt true ca ua else x))
      iid (Item.mk iid sid nm qt true ca ua) (Item.mk iid sid nm qt false ca ua) rfl hf2
    have hg1 : ItemService.ToggleItemCompletion storeItemService st iid
        = (.ok (Item.mk iid sid nm qt true ca ua),
           ⟨st.lists, st.items.map (fun x => if x.id = iid then Item.mk iid sid nm qt true ca ua else x)⟩) := by
      simp [ItemService.ToggleItemCompletion, storeItemService, storeItemRepo, h,
        Item.MarkCompleted]
    have hg3 : Store.itemGetByID
        ⟨st.lists, st.items.map (fun x => if x.id = iid then Item.mk iid sid nm qt true ca ua else x)⟩ iid
        = .ok (Item.mk iid sid nm qt true ca ua) := by
      simp only [Store.itemGetByID]
      rw [hf2]
    have hg4 : ItemService.ToggleItemCompletion storeItemService
        ⟨st.lists, st.items.map (fun x => if x.id = iid then Item.mk iid sid nm qt true ca ua else x)⟩ iid
        = (.ok (Item.mk iid sid nm qt false ca ua),
           ⟨st.lists, ((st.items.map (fun x => if x.id = iid then Item.mk iid sid nm qt true ca ua else x)).map
             (fun x => if x.id = iid then Item.mk iid sid nm qt false ca ua else x))⟩) := by
      simp [ItemService.ToggleItemCompletion, storeItemService, storeItemRepo, hg3,
        Item.MarkIncomplete]
    have hg5 : Store.itemGetByID
        ⟨st.lists, ((st.items.map (fun x => if x.id = iid then Item.mk iid sid nm qt true ca ua else x)).map
          (fun x => if x.id = iid then Item.mk iid sid nm qt false ca ua else x))⟩ iid
        = .ok (Item.mk iid sid nm qt false ca ua) := by
      simp only [Store.itemGetByID]
      rw [hf3]
    exact ⟨_, _, _, hg1, rfl, hg3, hg4, hg5⟩
  | true =>
    have hf2 := find_replace_eq st.items iid (Item.mk iid sid nm qt true ca ua)
      (Item.mk iid sid nm qt false ca ua) rfl hf
    have hf3 := find_replace_eq
      (st.items.map (fun x => if x.id = iid then Item.mk iid sid nm qt false ca ua else x))
      iid (Item.mk iid sid nm qt false ca ua) (Item.mk iid sid nm qt true ca ua) rfl hf2
    have hg1 : ItemService.ToggleItemCompletion storeItemService st iid
        = (.ok (Item.mk iid sid nm qt false ca ua),
           ⟨st.lists, st.items.map (fun x => if x.id = iid then Item.mk iid sid nm qt false ca ua else x)⟩) := by
      simp [ItemService.ToggleItemCompletion, storeItemService, storeItemRepo, h,
        Item.MarkIncomplete]
    have hg3 : Store.itemGetByID
        ⟨st.lists, st.items.map (fun x => if x.id = iid then Item.mk iid sid nm qt false ca ua else x)⟩ iid
        = .ok (Item.mk iid sid nm qt false ca ua) := by
      simp only [Store.itemGetByID]
      rw [hf2]
    have hg4 : ItemService.ToggleItemCompletion storeItemService
        ⟨st.lists, st.items.map (fun x => if x.id = iid then Item.mk iid sid nm qt false ca ua else x)⟩ iid
        = (.ok (Item.mk iid sid nm qt true ca ua),
           ⟨st.lists, ((st.items.map (fun x => if x.id = iid then Item.mk iid sid nm qt false ca ua else x)).map
             (fun x => if x.id = iid then Item.mk iid sid nm qt true ca ua else x))⟩) := by
      simp [ItemService.ToggleItemCompletion, storeItemService, storeItemRepo, hg3,
        Item.MarkCompleted]
    have hg5 : Store.itemGetByID
        ⟨st.lists, ((st.items.map (fun x => if x.id = iid then Item.mk iid sid nm qt false ca ua else x)).map
          (fun x => if x.id = iid then Item.mk iid sid nm qt true ca ua else x))⟩ iid
        = .ok (Item.mk iid sid nm qt true ca ua) := by
      simp only [Store.itemGetByID]
      rw [hf3]
    exact ⟨_, _, _, hg1, rfl, hg3, hg4, hg5⟩

theorem toggleCompletion_flips_and_twice_restores_witness :
    ∃ it1 st1 st2,
      ItemService.ToggleItemCompletion storeItemService sampleStore 10 = (.ok it1, st1) ∧
      it1.completed = !sampleMilk.completed ∧
      Store.itemGetByID st1 10 = .ok it1 ∧
      ItemService.ToggleItemCompletion storeItemService st1 10 = (.ok sampleMilk, st2) ∧
      Store.itemGetByID st2 10 = .ok sampleMilk :=
  toggleCompletion_flips_and_twice_restores sampleStore 10 sampleMilk rfl

/-- C10: for every repository and every existing item, a successful UpdateItem
returns an item with the same ID, ShoppingListID, CreatedAt and UpdatedAt as
the fetched item, overwriting exactly Name, Quantity and Completed; a
successful ToggleItemCompletion changes exactly the Completed flag (flipping
it) and preserves every other field. -/
theorem updateItem_toggle_frame {σ : Type} (svc : ItemService σ) (st : σ) (id : UUID)
    (it : Item) (h : svc.itemRepo.getByID st id = .ok it)
    (name : String) (q : Int) (c : Bool) :
    (∀ it2 st2, ItemService.UpdateItem svc st id name q c = (.ok it2, st2) →
      it2.id = it.id ∧ it2.shoppingListID = it.shoppingListID ∧
      it2.createdAt = it.createdAt ∧ it2.updatedAt = it.updatedAt ∧
      it2.name = name ∧ it2.quantity = q ∧ it2.completed = c) ∧
    (∀ it3 st3, ItemService.ToggleItemCompletion svc st id = (.ok it3, st3) →
      it3.id = it.id ∧ it3.shoppingListID = it.shoppingListID ∧
      it3.createdAt = it.createdAt ∧ it3.updatedAt = it.updatedAt ∧
      it3.name = it.name ∧ it3.quantity = it.quantity ∧
      it3.completed = !it.completed) := by
  constructor
  · intro it2 st2 heq
    by_cases hn : name = ""
    · unfold ItemService.UpdateItem at heq
      rw [if_pos hn] at heq
      simp at heq
    · unfold ItemService.UpdateItem at heq
      rw [if_neg hn, h] at heq
      simp only at heq
      split at heq
      · simp at heq
      · simp only [Prod.mk.injEq, Except.ok.injEq] at heq
        obtain ⟨h1, h2⟩ := heq
        rw [← h1]
        simp
  · intro it3 st3 heq
    unfold ItemService.ToggleItemCompletion at heq
    rw [h] at heq
    simp only at heq
    split at heq
    · simp at heq
    · simp only [Prod.mk.injEq, Except.ok.injEq] at heq
      obtain ⟨h1, h2⟩ := heq
      rw [← h1]
      cases hc : it.completed <;>
        simp [Item.MarkIncomplete, Item.MarkCompleted, hc]

theorem updateItem_toggle_frame_witness :
    (Item.mk 10 1 "Choc" 5 true 0 0).id = sampleMilk.id ∧
    (Item.mk 10 1 "Choc" 5 true 0 0).shoppingListID = sampleMilk.shoppingListID ∧
    (Item.mk 10 1 "Choc" 5 true 0 0).createdAt = sampleMilk.createdAt ∧
    (Item.mk 10 1 "Choc" 5 true 0 0).updatedAt = sampleMilk.updatedAt ∧
    (Item.mk 10 1 "Choc" 5 true 0 0).name = "Choc" ∧
    (Item.mk 10 1 "Choc" 5 true 0 0).quantity = 5 ∧
    (Item.mk 10 1 "Choc" 5 true 0 0).completed = true :=
  (updateItem_toggle_frame storeItemService sampleStore 10 sampleMilk rfl "Choc" 5 true).1
    (Item.mk 10 1 "Choc" 5 true 0 0)
    ⟨[sampleGroceries], [Item.mk 10 1 "Choc" 5 true 0 0, sampleNails, sampleEggs]⟩
    rfl
